import Mathlib

/-!
Verification development for the MCP-MKT repository: a HubSpot MCP server
(`src/unnamed/part_000`, with an earlier variant in `src/server.js`).

The development shallowly embeds the session-routing layer (the `transports`
map together with the `/sse` and `/messages` Express handlers) and the tool
invoker layer (the `hsPOST` and `hsGET` helpers, the `chunk` utility, and the
registered tools) as executable Lean definitions, and proves the spec claims
about them.

JavaScript values flowing through the tools are modelled by the `Json`
inductive below.  Remote HTTP interaction is modelled by passing the tool an
explicit fetch outcome (a response with status, body text and the outcome of
JSON.parse on that text, or a rejected promise); the tool definitions are then
pure functions from that outcome and the tool arguments to the result
envelope, translated line by line from the source.
-/

/-- Model of a JavaScript JSON value.  Object fields are kept as an ordered
list of key/value pairs; field access uses last-occurrence-wins lookup,
matching the semantics of JavaScript object literals and spreads where a
later entry for the same key overrides an earlier one.  Numbers occurring in
this codebase (statuses, limits, counts, lengths) are natural numbers. -/
inductive Json where
  | null : Json
  | bool (b : Bool) : Json
  | num (n : Nat) : Json
  | str (s : String) : Json
  | arr (elems : List Json) : Json
  | obj (fields : List (String × Json)) : Json

/-- Lookup of a field in an object field list, where a later binding for the
same key shadows an earlier one (JavaScript object semantics). -/
def lookupField : List (String × Json) → String → Option Json
  | [], _ => none
  | (k, v) :: rest, key =>
    match lookupField rest key with
    | some r => some r
    | none => if k = key then some v else none

/-- Property access `j.k` (equivalently the optional chain `j?.k` once `j` is
known not to be undefined): defined on objects, undefined elsewhere. -/
def Json.getField : Json → String → Option Json
  | .obj fs, key => lookupField fs key
  | _, _ => none

/-- JavaScript truthiness of a JSON value: null, false, 0 and the empty
string are falsy; every array and object (including empty ones) is truthy. -/
def jsTruthy : Json → Bool
  | .null => false
  | .bool b => b
  | .num n => n != 0
  | .str s => !s.isEmpty
  | .arr _ => true
  | .obj _ => true

/-- JavaScript truthiness of an optional-string argument (`undefined` when
absent): absent and the empty string are falsy. -/
def jsTruthyOptStr : Option String → Bool
  | none => false
  | some s => !s.isEmpty

/-- The nullish-coalescing operator `v ?? dflt` applied to a possibly-absent
field value: undefined (`none`) and null both select the default. -/
def jsNullish (v : Option Json) (dflt : Json) : Json :=
  match v with
  | none => dflt
  | some .null => dflt
  | some x => x

/-- The optional chain `v?.length` on a possibly-absent value: defined for
arrays (number of elements) and strings (number of characters), undefined
otherwise. -/
def jsOptLength : Option Json → Option Nat
  | some (.arr l) => some l.length
  | some (.str s) => some s.length
  | _ => none

/- ===================== Session router =====================

Source (`src/unnamed/part_000`, lines 556-573; same shape in
`src/server.js`, lines 80-98):

  const transports = {}; // sessionId -> transport
  app.get("/sse", ...)   : transports[transport.sessionId] = transport;
                           res.on("close", () => { delete transports[transport.sessionId]; });
  app.post("/messages", ...) : const transport = transports[sessionId];
                           if (!transport) return res.status(400).send(...);
                           await transport.handlePostMessage(req, res, req.body);

Transports are identified abstractly by a natural number; the registry is the
ordered association list of own keys of the `transports` object.

`transports` is a plain object literal, so the bracket read
`transports[sessionId]` consults the whole property chain: an own key wins,
but for an unregistered sessionId that happens to be one of the member names
of Object.prototype (toString, constructor, and so on) the read yields the
inherited member — a function, or for the proto accessor the prototype object
itself — which is truthy, so the `if (!transport)` guard is skipped and
`transport.handlePostMessage` is called on a non-transport, throwing a
TypeError instead of answering 400.  The model keeps this chain. -/

/-- The session registry: the `transports` object, mapping session identifier
to transport.  A fresh assignment prepends, so lookup is first-match. -/
def Registry : Type := List (String × Nat)

/-- Reading `transports[sid]`: first-match lookup (assignments prepend, so
the most recent assignment for a key wins). -/
def lookupSession : List (String × Nat) → String → Option Nat
  | [], _ => none
  | (k, v) :: rest, sid => if k = sid then some v else lookupSession rest sid

/-- The assignment `transports[transport.sessionId] = transport` performed by
the `/sse` handler after constructing the transport. -/
def openSession (reg : List (String × Nat)) (sid : String) (t : Nat) : List (String × Nat) :=
  (sid, t) :: reg

/-- The `delete transports[transport.sessionId]` performed by the close
listener installed by the `/sse` handler: every binding of the key is
removed. -/
def closeSession : List (String × Nat) → String → List (String × Nat)
  | [], _ => []
  | (k, v) :: rest, sid =>
    if k = sid then closeSession rest sid else (k, v) :: closeSession rest sid

/-- The member names a plain object literal inherits from Object.prototype
(standard functions plus the proto accessor); a bracket read at any of them
on `transports` yields a truthy non-transport value. -/
def objectPrototypeKeys : List String :=
  ["constructor", "hasOwnProperty", "isPrototypeOf", "propertyIsEnumerable",
   "toLocaleString", "toString", "valueOf", "__proto__", "__defineGetter__",
   "__defineSetter__", "__lookupGetter__", "__lookupSetter__"]

/-- The value produced by the bracket read `transports[sid]`: an own entry
(a registered transport), a truthy member inherited from Object.prototype,
or undefined. -/
inductive PropValue where
  | own (t : Nat) : PropValue
  | inherited : PropValue
  | undefinedRead : PropValue

/-- The bracket read `transports[sid]` on the plain object `transports`: an
own key wins; otherwise the Object.prototype chain supplies a truthy
inherited member for its member names; otherwise the read is undefined. -/
def readTransports (reg : List (String × Nat)) (sid : String) : PropValue :=
  match lookupSession reg sid with
  | some t => .own t
  | none => if sid ∈ objectPrototypeKeys then .inherited else .undefinedRead

/-- Outcome of one request to the `/messages` endpoint: the message is
handed to a registered transport (`transport.handlePostMessage`), or the
endpoint answers with an HTTP status and body without touching any
transport, or — when the bracket read returned a truthy inherited
Object.prototype member — `handlePostMessage` is called on that
non-transport value and throws a TypeError, so no status is written by the
handler and no session transport receives the message. -/
inductive DispatchResult where
  | delivered (transport : Nat) : DispatchResult
  | rejected (status : Nat) (body : String) : DispatchResult
  | typeErrorFault : DispatchResult
deriving DecidableEq

/-- The `/messages` POST handler: read `transports[sessionId]`; a falsy
value (undefined) answers 400; a registered transport receives the message;
a truthy inherited member passes the guard and the handlePostMessage call on
it throws a TypeError. -/
def postMessages (reg : List (String × Nat)) (sid : String) : DispatchResult :=
  match readTransports reg sid with
  | .own t => .delivered t
  | .inherited => .typeErrorFault
  | .undefinedRead => .rejected 400 "No transport found for sessionId"

/-- The registered session transports whose handlePostMessage is invoked by
one dispatch outcome (in the typeErrorFault case the call lands on an
inherited Object.prototype member, not on any session transport). -/
def invokedTransports : DispatchResult → List Nat
  | .delivered t => [t]
  | .rejected _ _ => []
  | .typeErrorFault => []

/- ===================== chunk utility =====================

Source (`src/unnamed/part_000`, lines 59-63):

  function chunk(arr, size = 90) {
    const out = [];
    for (let i = 0; i < arr.length; i += size) out.push(arr.slice(i, i + size));
    return out;
  }

The loop visits i = 0, size, 2*size, ... while i < arr.length, i.e. one
iteration per k with k * size < arr.length, which is k < ceil(length / size);
iteration k pushes arr.slice(k*size, k*size + size).  The definition below is
that closed form.  (With size = 0 the JavaScript loop would not terminate on
a non-empty array; the sole call sites use the default size 90.) -/

/-- The `chunk` utility: slice `arr` into consecutive runs of `size`
elements, in order. -/
def chunk (arr : List α) (size : Nat := 90) : List (List α) :=
  (List.range ((arr.length + size - 1) / size)).map
    (fun k => (arr.drop (k * size)).take size)

/-- Chunking the empty array yields no chunks (the loop body never runs). -/
theorem chunk_nil {α : Type} (size : Nat) : chunk ([] : List α) size = [] := by
  unfold chunk
  have h : (List.length ([] : List α) + size - 1) / size = 0 := by
    rcases Nat.eq_zero_or_pos size with h0 | hpos
    · subst h0
      simp
    · simp only [List.length_nil, Nat.zero_add]
      exact Nat.div_eq_of_lt (by omega)
  rw [h]
  simp

/-- Unfolding lemma matching the loop structure: on a non-empty array with a
positive size, `chunk` yields the first `size` elements followed by the
chunks of the rest. -/
theorem chunk_cons {α : Type} (arr : List α) (size : Nat)
    (hs : 0 < size) (ha : arr ≠ []) :
    chunk arr size = arr.take size :: chunk (arr.drop size) size := by
  have hlen : 1 ≤ arr.length := List.length_pos.mpr ha
  have hceil : (arr.length + size - 1) / size =
      (arr.length - size + size - 1) / size + 1 := by
    rcases le_or_lt arr.length size with hle | hlt
    · have h1 : arr.length - size = 0 := Nat.sub_eq_zero_of_le hle
      have h2 : arr.length + size - 1 = (arr.length - 1) + size := by omega
      have h3 : (arr.length - 1) / size = 0 := Nat.div_eq_of_lt (by omega)
      have h4 : (0 + size - 1) / size = 0 := Nat.div_eq_of_lt (by omega)
      rw [h1, h2, Nat.add_div_right _ hs, h3, h4]
    · have h2 : arr.length + size - 1 = (arr.length - 1) + size := by omega
      have h5 : arr.length - size + size - 1 = (arr.length - size - 1) + size := by
        omega
      have h6 : arr.length - size - 1 + size = arr.length - 1 := by omega
      rw [h2, h5, Nat.add_div_right _ hs, Nat.add_div_right _ hs, ← h6,
        Nat.add_div_right _ hs]
  have hstep : ∀ k : Nat,
      (arr.drop (Nat.succ k * size)).take size
        = ((arr.drop size).drop (k * size)).take size := by
    intro k
    rw [List.drop_drop, Nat.succ_mul, Nat.add_comm (k * size) size]
  unfold chunk
  rw [List.length_drop, hceil, List.range_succ_eq_map, List.map_cons,
    List.map_map]
  refine congrArg₂ List.cons (by simp) ?_
  have hfun : (fun k => (arr.drop (k * size)).take size) ∘ Nat.succ
      = fun k => ((arr.drop size).drop (k * size)).take size := by
    funext k
    simp only [Function.comp_apply]
    exact hstep k
  rw [hfun]

/-- Concatenating the chunks recovers the original array: the partition is
into contiguous runs in the original order. -/
theorem chunk_join {α : Type} (size : Nat) (hs : 0 < size) :
    ∀ arr : List α, (chunk arr size).flatten = arr := by
  have main : ∀ n : Nat, ∀ arr : List α, arr.length ≤ n →
      (chunk arr size).flatten = arr := by
    intro n
    induction n with
    | zero =>
      intro arr h
      have hnil : arr = [] := List.eq_nil_of_length_eq_zero (Nat.le_zero.mp h)
      subst hnil
      simp [chunk_nil]
    | succ n ih =>
      intro arr h
      cases arr with
      | nil => simp [chunk_nil]
      | cons a l =>
        rw [chunk_cons _ _ hs (by simp), List.flatten_cons]
        have hdrop : ((a :: l).drop size).length ≤ n := by
          rw [List.length_drop]
          simp only [List.length_cons] at h ⊢
          omega
        rw [ih _ hdrop, List.take_append_drop]
  intro arr
  exact main arr.length arr Nat.le.refl

/-- The number of chunks is the ceiling of length / size. -/
theorem chunk_length {α : Type} (arr : List α) (size : Nat) :
    (chunk arr size).length = (arr.length + size - 1) / size := by
  simp [chunk]

/-- Chunks of a non-empty array form a non-empty list. -/
theorem chunk_ne_nil {α : Type} (arr : List α) (size : Nat)
    (hs : 0 < size) (ha : arr ≠ []) : chunk arr size ≠ [] := by
  rw [chunk_cons _ _ hs ha]
  simp

/-- Every chunk except the last has exactly `size` elements. -/
theorem chunk_dropLast_sizes {α : Type} (size : Nat) (hs : 0 < size) :
    ∀ arr : List α, ∀ g ∈ (chunk arr size).dropLast, g.length = size := by
  have main : ∀ n : Nat, ∀ arr : List α, arr.length ≤ n →
      ∀ g ∈ (chunk arr size).dropLast, g.length = size := by
    intro n
    induction n with
    | zero =>
      intro arr h
      have hnil : arr = [] := List.eq_nil_of_length_eq_zero (Nat.le_zero.mp h)
      subst hnil
      simp [chunk_nil]
    | succ n ih =>
      intro arr h
      cases arr with
      | nil => simp [chunk_nil]
      | cons a l =>
        rw [chunk_cons _ _ hs (by simp)]
        by_cases hrest : (a :: l).drop size = []
        · rw [hrest]
          simp [chunk_nil]
        · have hlong : size < (a :: l).length := by
            by_contra hc
            push_neg at hc
            exact hrest (List.drop_eq_nil_of_le hc)
          rw [List.dropLast_cons_of_ne_nil (chunk_ne_nil _ _ hs hrest)]
          intro g hg
          rcases List.mem_cons.mp hg with hhead | htail
          · subst hhead
            rw [List.length_take]
            omega
          · have hdrop : ((a :: l).drop size).length ≤ n := by
              rw [List.length_drop]
              simp only [List.length_cons] at h ⊢
              omega
            exact ih _ hdrop g htail
  intro arr
  exact main arr.length arr Nat.le.refl

/- ===================== HTTP layer =====================

Remote interaction model.  A call to fetch either resolves to a response or
rejects (network/transport failure).  A response carries its HTTP status, its
body text (`await res.text()`), and the outcome of `JSON.parse` on that text
(a parsed value, or the string rendering of the thrown SyntaxError); since
the parse outcome is a function of the body text, it is supplied as part of
the response oracle.  Thrown JavaScript values are either `new Error(msg)`
(whose string rendering is "Error: " followed by the message) or some other
thrown value carried by its string rendering. -/

/-- A JavaScript value thrown or used to reject a promise. -/
inductive JsError where
  | error (msg : String) : JsError
  | other (rendering : String) : JsError

/-- The result of applying String(e) to a thrown value, as done by the catch
blocks of every tool. -/
def JsError.toStringRep : JsError → String
  | .error msg => "Error: " ++ msg
  | .other rendering => rendering

/-- An HTTP response: status, body text, and the outcome of JSON.parse on
the body text. -/
structure HttpResponse where
  status : Nat
  text : String
  parsed : Except String Json

/-- Whether `res.ok` holds: status in the 2xx range. -/
def HttpResponse.isOk (r : HttpResponse) : Bool :=
  decide (200 ≤ r.status) && decide (r.status < 300)

/-- Outcome of one fetch call: a response, or a rejected promise. -/
inductive FetchOutcome where
  | response (r : HttpResponse) : FetchOutcome
  | reject (e : JsError) : FetchOutcome

/-- The `hsPOST` helper (`src/unnamed/part_000`, lines 18-36): await the
fetch (a rejection propagates), read the body text, throw
`new Error("HubSpot " + status + " " + text)` on a non-ok status, then try
to parse the text as JSON, falling back to the raw text on parse failure. -/
def hsPOST (out : FetchOutcome) : Except JsError Json :=
  match out with
  | .reject e => .error e
  | .response r =>
    if r.isOk then
      match r.parsed with
      | .ok j => .ok j
      | .error _ => .ok (.str r.text)
    else
      .error (.error ("HubSpot " ++ toString r.status ++ " " ++ r.text))

/-- The response-handling part of the `hsGET` helper (`src/unnamed/part_000`,
lines 38-56): identical to hsPOST once the URL has been built. -/
def hsGET (out : FetchOutcome) : Except JsError Json :=
  match out with
  | .reject e => .error e
  | .response r =>
    if r.isOk then
      match r.parsed with
      | .ok j => .ok j
      | .error _ => .ok (.str r.text)
    else
      .error (.error ("HubSpot " ++ toString r.status ++ " " ++ r.text))

/-- A query-string value passed to hsGET: undefined, null, a string, or a
number. -/
inductive JsVal where
  | undef : JsVal
  | vnull : JsVal
  | vstr (s : String) : JsVal
  | vnum (n : Nat) : JsVal

/-- The query-string construction in hsGET: keep a parameter unless its
value is undefined, null, or the empty string, and render kept values with
String(v). -/
def hsGETQueryParams (query : List (String × JsVal)) : List (String × String) :=
  query.filterMap (fun kv =>
    match kv.2 with
    | .undef => none
    | .vnull => none
    | .vstr s => if s = "" then none else some (kv.1, s)
    | .vnum n => some (kv.1, toString n))

/- ===================== Tool invoker =====================

Each registered tool is translated as a pure function from the fetch
outcome(s) of its remote call(s) and its (schema-validated) arguments to the
result envelope it passes to `asText`.  Arguments with zod defaults are
modelled as `Option` values with the default applied on destructuring, as in
the source.  The `asText` wrapper (lines 66-73) only serialises the envelope
for transport, so the envelope object itself is the value of interest.  Each
tool additionally gets a `...Requests` function giving the list of outbound
calls it issues, in order, each with the request body it sends. -/

/-- One element of a HubSpot `filters` array:
`{ propertyName, operator, value }`. -/
structure HsFilter where
  propertyName : String
  op : String
  value : String

/-- The body sent to a HubSpot CRM search endpoint by the fixed-shape search
tools: `{ filterGroups, properties, limit }`, where each filter group is
`{ filters: [...] }` and is modelled by its filters list. -/
structure SearchReqBody where
  filterGroups : List (List HsFilter)
  properties : List String
  limit : Nat

/-- The failure envelope `{ ok: false, error: String(e) }` produced by the
catch block of every tool. -/
def failEnv (e : String) : Json :=
  .obj [("ok", .bool false), ("error", .str e)]

/-- The failure envelope a tool produces when hsPOST or hsGET throws
`new Error("HubSpot " + status + " " + text)` on a non-ok status and the
catch block applies String(e). -/
def hsStatusFailEnv (r : HttpResponse) : Json :=
  failEnv (JsError.toStringRep (.error ("HubSpot " ++ toString r.status ++
    " " ++ r.text)))

/-- The success envelope shared verbatim by the five search-style tools
(contacts, companies, deals, recently modified, advanced search):

  { ok: true,
    count: data?.results?.length ?? 0,
    results: data?.results ?? [],
    paging: data?.paging ?? null }
-/
def searchSuccessEnvelope (data : Json) : Json :=
  .obj [("ok", .bool true),
        ("count", .num ((jsOptLength (data.getField "results")).getD 0)),
        ("results", jsNullish (data.getField "results") (.arr [])),
        ("paging", jsNullish (data.getField "paging") .null)]

/-- Default properties of `hubspot_contacts_search`
(`src/unnamed/part_000`, lines 92-99). -/
def contactsDefaultProps : List String :=
  ["email", "firstname", "lastname", "lifecyclestage", "createdate",
   "hubspot_owner_id"]

/-- The search body built by `hubspot_contacts_search` (lines 104-125): a
single filter group with CONTAINS_TOKEN filters on email and firstname when
`query` is truthy, no filter groups otherwise. -/
def contactsSearchBody (query : Option String) (properties : Option (List String))
    (limit : Option Nat) : SearchReqBody :=
  { filterGroups :=
      match query with
      | some q =>
        if q.isEmpty then []
        else [[⟨"email", "CONTAINS_TOKEN", q⟩, ⟨"firstname", "CONTAINS_TOKEN", q⟩]]
      | none => []
    properties := properties.getD contactsDefaultProps
    limit := limit.getD 20 }

/-- Outbound calls of `hubspot_contacts_search`: exactly one POST to the
contacts search path. -/
def contactsSearchRequests (query : Option String) (properties : Option (List String))
    (limit : Option Nat) : List (String × SearchReqBody) :=
  [("/crm/v3/objects/contacts/search", contactsSearchBody query properties limit)]

/-- The `hubspot_contacts_search` tool (lines 79-141): hsPOST the search
body; on success wrap `data` in the shared search success envelope, on a
caught error return `{ ok: false, error: String(e) }`. -/
def hubspot_contacts_search (out : FetchOutcome) (query : Option String)
    (properties : Option (List String)) (limit : Option Nat) : Json :=
  match hsPOST out with
  | .ok data => searchSuccessEnvelope data
  | .error e => failEnv e.toStringRep

/-- Default properties of `hubspot_companies_search` (line 157). -/
def companiesDefaultProps : List String :=
  ["name", "domain", "industry", "city", "country"]

/-- The search body built by `hubspot_companies_search` (lines 162-183). -/
def companiesSearchBody (query : Option String) (properties : Option (List String))
    (limit : Option Nat) : SearchReqBody :=
  { filterGroups :=
      match query with
      | some q =>
        if q.isEmpty then []
        else [[⟨"name", "CONTAINS_TOKEN", q⟩, ⟨"domain", "CONTAINS_TOKEN", q⟩]]
      | none => []
    properties := properties.getD companiesDefaultProps
    limit := limit.getD 20 }

/-- Outbound calls of `hubspot_companies_search`. -/
def companiesSearchRequests (query : Option String) (properties : Option (List String))
    (limit : Option Nat) : List (String × SearchReqBody) :=
  [("/crm/v3/objects/companies/search", companiesSearchBody query properties limit)]

/-- The `hubspot_companies_search` tool (lines 144-198). -/
def hubspot_companies_search (out : FetchOutcome) (query : Option String)
    (properties : Option (List String)) (limit : Option Nat) : Json :=
  match hsPOST out with
  | .ok data => searchSuccessEnvelope data
  | .error e => failEnv e.toStringRep

/-- Default properties of `hubspot_deals_search` (lines 216-224). -/
def dealsDefaultProps : List String :=
  ["dealname", "amount", "dealstage", "pipeline", "createdate",
   "hs_close_date", "hubspot_owner_id"]

/-- The filters array built by `hubspot_deals_search` (lines 229-233): an EQ
filter on dealstage when `stage` is truthy, then an EQ filter on pipeline
when `pipeline` is truthy. -/
def dealsFilters (stage pipeline : Option String) : List HsFilter :=
  (match stage with
   | some s => if s.isEmpty then [] else [⟨"dealstage", "EQ", s⟩]
   | none => []) ++
  (match pipeline with
   | some p => if p.isEmpty then [] else [⟨"pipeline", "EQ", p⟩]
   | none => [])

/-- The search body built by `hubspot_deals_search` (lines 235-239):
`{ filterGroups: filters.length ? [{filters}] : [], properties, limit }`. -/
def dealsSearchBody (stage pipeline : Option String)
    (properties : Option (List String)) (limit : Option Nat) : SearchReqBody :=
  { filterGroups :=
      if (dealsFilters stage pipeline).isEmpty then []
      else [dealsFilters stage pipeline]
    properties := properties.getD dealsDefaultProps
    limit := limit.getD 20 }

/-- Outbound calls of `hubspot_deals_search`: exactly one POST to the deals
search path. -/
def dealsSearchRequests (stage pipeline : Option String)
    (properties : Option (List String)) (limit : Option Nat) :
    List (String × SearchReqBody) :=
  [("/crm/v3/objects/deals/search", dealsSearchBody stage pipeline properties limit)]

/-- The `hubspot_deals_search` tool (lines 201-255). -/
def hubspot_deals_search (out : FetchOutcome) (stage pipeline : Option String)
    (properties : Option (List String)) (limit : Option Nat) : Json :=
  match hsPOST out with
  | .ok data => searchSuccessEnvelope data
  | .error e => failEnv e.toStringRep

/-- The spread `{ ok: true, ...data }` used by the pass-through tools.  In
JavaScript, spreading an object copies its fields (later keys overriding the
initial `ok`), spreading an array or a string copies its index-keyed
elements or characters, and spreading null, a boolean or a number copies
nothing. -/
def spreadOkTrue (data : Json) : Json :=
  match data with
  | .obj fs => .obj (("ok", .bool true) :: fs)
  | .arr l =>
    .obj (("ok", .bool true) :: l.enum.map (fun p => (toString p.1, p.2)))
  | .str s =>
    .obj (("ok", .bool true) ::
      s.toList.enum.map (fun p => (toString p.1, Json.str p.2.toString)))
  | _ => .obj [("ok", .bool true)]

/-- Outbound call of `hubspot_owners_list` (line 271): one GET to
`/crm/v3/owners/` with query object `{ after, limit }`, limit defaulting to
100, filtered and rendered by the hsGET query builder. -/
def ownersListRequests (after : Option String) (limit : Option Nat) :
    List (String × List (String × String)) :=
  [("/crm/v3/owners/",
    hsGETQueryParams
      [("after", match after with | none => .undef | some s => .vstr s),
       ("limit", .vnum (limit.getD 100))])]

/-- The `hubspot_owners_list` tool (lines 258-278): hsGET the owners list;
on success return `{ ok: true, ...data }`, on a caught error
`{ ok: false, error: String(e) }`. -/
def hubspot_owners_list (out : FetchOutcome) (after : Option String)
    (limit : Option Nat) : Json :=
  match hsGET out with
  | .ok data => spreadOkTrue data
  | .error e => failEnv e.toStringRep

/-- The `hubspot_properties` tool (lines 281-300): GET the property schema
and pass it through as `{ ok: true, ...data }`. -/
def hubspot_properties (out : FetchOutcome) : Json :=
  match hsGET out with
  | .ok data => spreadOkTrue data
  | .error e => failEnv e.toStringRep

/-- The `hubspot_pipelines` tool (lines 303-322): GET the pipelines of an
object and pass them through as `{ ok: true, ...data }`. -/
def hubspot_pipelines (out : FetchOutcome) : Json :=
  match hsGET out with
  | .ok data => spreadOkTrue data
  | .error e => failEnv e.toStringRep

/-- The `hubspot_paginate` tool (lines 325-351): GET one page of an object
listing and pass it through as `{ ok: true, ...data }`. -/
def hubspot_paginate (out : FetchOutcome) : Json :=
  match hsGET out with
  | .ok data => spreadOkTrue data
  | .error e => failEnv e.toStringRep

/- ===================== Batch read by ids =====================

Source (`src/unnamed/part_000`, lines 354-395):

  const all = [];
  for (const part of chunk(ids)) {
    const res = await fetch(".../crm/v3/objects/OBJ/batch/read",
      { body: JSON.stringify({ properties, inputs: part.map((id) => ({ id })) }) });
    const text = await res.text();
    if (!res.ok) throw new Error("HubSpot batch OBJ " + res.status + " " + text);
    const json = JSON.parse(text);
    if (json?.results) all.push(...json.results);
  }
  return asText({ ok: true, results: all }, "batch_read");

with the whole loop inside the try/catch that produces
`{ ok: false, error: String(e) }`. -/

/-- The request body of one batch-read call:
`{ properties, inputs: [{id}, ...] }`. -/
structure BatchReadBody where
  properties : List String
  inputs : List Json

/-- Outbound calls of `hubspot_batch_read`: one POST per chunk of 90 ids, in
chunk order. -/
def batchReadRequests (object : String) (ids : List String)
    (properties : Option (List String)) : List (String × BatchReadBody) :=
  (chunk ids 90).map (fun part =>
    ("/crm/v3/objects/" ++ object ++ "/batch/read",
     { properties := properties.getD []
       inputs := part.map (fun id => Json.obj [("id", .str id)]) }))

/-- Spreading a value into `all.push(...v)`: arrays contribute their
elements, strings their characters; any other value is not iterable and the
push throws a TypeError (whose exact message text is produced by the
JavaScript runtime and is irrelevant to the claims). -/
def jsSpreadElems : Json → Except JsError (List Json)
  | .arr l => .ok l
  | .str s => .ok (s.toList.map (fun c => Json.str c.toString))
  | _ => .error (.other "TypeError: spread of a non-iterable value")

/-- The batch-read loop body applied to the chunks in order: accumulate the
spread `results` of each successfully parsed 2xx response, throwing on the
first non-ok status, parse failure, or non-iterable truthy `results`. -/
def runBatchGroups (remote : List String → FetchOutcome) (object : String) :
    List (List String) → Except JsError (List Json)
  | [] => .ok []
  | part :: rest =>
    match remote part with
    | .reject e => .error e
    | .response r =>
      if r.isOk then
        match r.parsed with
        | .error rendering => .error (.other rendering)
        | .ok json =>
          match json.getField "results" with
          | none => runBatchGroups remote object rest
          | some v =>
            if jsTruthy v then
              match jsSpreadElems v with
              | .error e => .error e
              | .ok es =>
                match runBatchGroups remote object rest with
                | .error e => .error e
                | .ok later => .ok (es ++ later)
            else runBatchGroups remote object rest
      else
        .error (.error ("HubSpot batch " ++ object ++ " " ++
          toString r.status ++ " " ++ r.text))

/-- The `hubspot_batch_read` tool: run the loop over the chunks of the ids;
on success return `{ ok: true, results: all }` (note: no count and no paging
field), on a caught error `{ ok: false, error: String(e) }`. -/
def hubspot_batch_read (remote : List String → FetchOutcome) (object : String)
    (ids : List String) (properties : Option (List String)) : Json :=
  match runBatchGroups remote object (chunk ids 90) with
  | .ok all => .obj [("ok", .bool true), ("results", .arr all)]
  | .error e => failEnv e.toStringRep

/- ===================== Associations batch =====================

Source (`src/unnamed/part_000`, lines 398-441): a single fetch to
`/crm/v3/associations/FROM/TO/batch/read` with body
`{ inputs: ids.map((id) => ({ id })) }` — the ids list is NOT chunked. -/

/-- The request body of the associations batch call:
`{ inputs: [{id}, ...] }` over the whole ids list. -/
def associationsBatchBody (ids : List String) : Json :=
  .obj [("inputs", .arr (ids.map (fun id => Json.obj [("id", .str id)])))]

/-- Outbound calls of `hubspot_associations_batch`: exactly one POST
carrying every id, whatever the size of `ids`. -/
def associationsBatchRequests (from_object to_object : String)
    (ids : List String) : List (String × Json) :=
  [("/crm/v3/associations/" ++ from_object ++ "/" ++ to_object ++ "/batch/read",
    associationsBatchBody ids)]

/-- The `hubspot_associations_batch` tool: one fetch; non-ok status throws
`new Error("HubSpot associations FROM->TO " + status + " " + text)`; the body
is parsed strictly (a parse failure throws); on success the parsed data is
passed through as `{ ok: true, ...data }`. -/
def hubspot_associations_batch (out : FetchOutcome)
    (from_object to_object : String) : Json :=
  match out with
  | .reject e => failEnv e.toStringRep
  | .response r =>
    if r.isOk then
      match r.parsed with
      | .error rendering => failEnv rendering
      | .ok data => spreadOkTrue data
    else
      failEnv (JsError.toStringRep (.error ("HubSpot associations " ++
        from_object ++ "->" ++ to_object ++ " " ++ toString r.status ++ " " ++
        r.text)))

/-- The sort specification sent by `hubspot_recently_modified`
(lines 473-475). -/
structure SortSpec where
  propertyName : String
  direction : String

/-- The search body built by `hubspot_recently_modified` (lines 459-476):
one filter group with a GTE filter on hs_lastmodifieddate, plus a descending
sort on the same property. -/
structure RecentlyModifiedBody where
  filterGroups : List (List HsFilter)
  properties : List String
  limit : Nat
  sorts : List SortSpec

/-- The request body of `hubspot_recently_modified`. -/
def recentlyModifiedBody (since_ms : Nat) (properties : Option (List String))
    (limit : Option Nat) : RecentlyModifiedBody :=
  { filterGroups := [[⟨"hs_lastmodifieddate", "GTE", toString since_ms⟩]]
    properties := properties.getD []
    limit := limit.getD 50
    sorts := [⟨"hs_lastmodifieddate", "DESCENDING"⟩] }

/-- The `hubspot_recently_modified` tool (lines 444-491): hsPOST the search
body; the success envelope is the shared search success envelope. -/
def hubspot_recently_modified (out : FetchOutcome) (object : String)
    (since_ms : Nat) (properties : Option (List String))
    (limit : Option Nat) : Json :=
  match hsPOST out with
  | .ok data => searchSuccessEnvelope data
  | .error e => failEnv e.toStringRep

/-- The request body of `hubspot_search_advanced` (lines 510-515): raw
filterGroups and sorts pass through as given; `sorts` is included only when
truthy. -/
structure AdvancedSearchBody where
  filterGroups : Json
  properties : List String
  limit : Nat
  sorts : Option Json

/-- The body builder of `hubspot_search_advanced`. -/
def advancedSearchBody (filterGroups : Json) (properties : Option (List String))
    (limit : Option Nat) (sorts : Option Json) : AdvancedSearchBody :=
  { filterGroups := filterGroups
    properties := properties.getD []
    limit := limit.getD 50
    sorts :=
      match sorts with
      | some s => if jsTruthy s then some s else none
      | none => none }

/-- The `hubspot_search_advanced` tool (lines 494-530): hsPOST the body; the
success envelope is the shared search success envelope. -/
def hubspot_search_advanced (out : FetchOutcome) (object : String)
    (filterGroups : Json) (properties : Option (List String))
    (limit : Option Nat) (sorts : Option Json) : Json :=
  match hsPOST out with
  | .ok data => searchSuccessEnvelope data
  | .error e => failEnv e.toStringRep

/- ===================== Session router lemmas ===================== -/

/-- After deleting a session id, looking it up fails. -/
theorem lookupSession_closeSession (reg : List (String × Nat)) (sid : String) :
    lookupSession (closeSession reg sid) sid = none := by
  induction reg with
  | nil => rfl
  | cons kv rest ih =>
    obtain ⟨k, v⟩ := kv
    unfold closeSession
    by_cases hk : k = sid
    · rw [if_pos hk]
      exact ih
    · rw [if_neg hk]
      unfold lookupSession
      rw [if_neg hk]
      exact ih

/-- Unfolding equation of closeSession on a non-empty registry. -/
theorem closeSession_cons (k : String) (v : Nat) (rest : List (String × Nat))
    (sid : String) :
    closeSession ((k, v) :: rest) sid =
      if k = sid then closeSession rest sid
      else (k, v) :: closeSession rest sid := rfl

/-- Deleting a session id twice is the same as deleting it once. -/
theorem closeSession_idem (reg : List (String × Nat)) (sid : String) :
    closeSession (closeSession reg sid) sid = closeSession reg sid := by
  induction reg with
  | nil => rfl
  | cons kv rest ih =>
    obtain ⟨k, v⟩ := kv
    by_cases hk : k = sid
    · rw [closeSession_cons, if_pos hk]
      exact ih
    · rw [closeSession_cons, if_neg hk, closeSession_cons, if_neg hk, ih]

/-- Deleting a session id that is not registered leaves the registry
unchanged. -/
theorem closeSession_not_mem (reg : List (String × Nat)) (sid : String)
    (habs : lookupSession reg sid = none) : closeSession reg sid = reg := by
  induction reg with
  | nil => rfl
  | cons kv rest ih =>
    obtain ⟨k, v⟩ := kv
    unfold lookupSession at habs
    by_cases hk : k = sid
    · rw [if_pos hk] at habs
      exact absurd habs (by simp)
    · rw [if_neg hk] at habs
      unfold closeSession
      rw [if_neg hk, ih habs]

/- ===================== Claim theorems: session router ===================== -/

/-- C1: for every session identifier currently registered in the `transports`
registry, a POST to `/messages` with that identifier hands the message to
exactly the transport registered under it and to no other transport; and a
stream-open registers its identifier so that this lookup succeeds. -/
theorem dispatch_delivers_to_registered_session
    (reg : List (String × Nat)) (sid : String) (t u : Nat)
    (hreg : lookupSession reg sid = some t) :
    postMessages reg sid = .delivered t
    ∧ invokedTransports (postMessages reg sid) = [t]
    ∧ lookupSession (openSession reg sid u) sid = some u := by
  have hread : readTransports reg sid = .own t := by
    unfold readTransports
    rw [hreg]
  refine ⟨?_, ?_, ?_⟩
  · unfold postMessages
    rw [hread]
  · unfold postMessages
    rw [hread]
    rfl
  · unfold openSession lookupSession
    rw [if_pos rfl]

/-- Witness for C1 on a concrete two-session registry. -/
theorem dispatch_delivers_to_registered_session_witness :
    lookupSession [("s1", 1), ("s2", 2)] "s1" = some 1
    ∧ postMessages [("s1", 1), ("s2", 2)] "s1" = .delivered 1
    ∧ invokedTransports (postMessages [("s1", 1), ("s2", 2)] "s1") = [1] := by
  have h := dispatch_delivers_to_registered_session
    [("s1", 1), ("s2", 2)] "s1" 1 1 (by rfl)
  exact ⟨by rfl, h.1, h.2.1⟩

/-- Counterexample to C2: the unregistered identifier "toString" is a member
name of Object.prototype, so the bracket read yields a truthy inherited
function, the 400 guard is skipped, and the handlePostMessage call on it
throws a TypeError — the endpoint does not return HTTP 400 for this
unregistered identifier. -/
theorem dispatch_toString_skips_400 :
    lookupSession [] "toString" = none
    ∧ postMessages [] "toString" = .typeErrorFault
    ∧ postMessages [] "toString"
        ≠ .rejected 400 "No transport found for sessionId" := by
  refine ⟨rfl, by decide, by decide⟩

/-- C2 as amended: for an identifier that is not in the registry and is not
one of the Object.prototype member names, a POST to `/messages` answers
exactly HTTP 400 (with the literal body of the source) and invokes no
session transport; for an unregistered identifier that is such a member
name, the truthy inherited value bypasses the 400 guard and the
handlePostMessage call on it throws a TypeError instead.  In both cases no
session transport receives the message. -/
theorem dispatch_unknown_session_rejected
    (reg : List (String × Nat)) (sid : String)
    (habs : lookupSession reg sid = none) :
    (sid ∉ objectPrototypeKeys →
      postMessages reg sid = .rejected 400 "No transport found for sessionId"
      ∧ invokedTransports (postMessages reg sid) = [])
    ∧ (sid ∈ objectPrototypeKeys → postMessages reg sid = .typeErrorFault)
    ∧ invokedTransports (postMessages reg sid) = [] := by
  have hread : readTransports reg sid
      = if sid ∈ objectPrototypeKeys then .inherited else .undefinedRead := by
    unfold readTransports
    rw [habs]
  by_cases hmem : sid ∈ objectPrototypeKeys
  · refine ⟨fun hn => absurd hmem hn, fun _ => ?_, ?_⟩
    · unfold postMessages
      rw [hread, if_pos hmem]
    · unfold postMessages
      rw [hread, if_pos hmem]
      rfl
  · refine ⟨fun _ => ⟨?_, ?_⟩, fun hm => absurd hm hmem, ?_⟩
    · unfold postMessages
      rw [hread, if_neg hmem]
    · unfold postMessages
      rw [hread, if_neg hmem]
      rfl
    · unfold postMessages
      rw [hread, if_neg hmem]
      rfl

/-- Witness for C2: a concrete registry, an ordinary unknown identifier,
and the prototype member name "toString". -/
theorem dispatch_unknown_session_rejected_witness :
    lookupSession [("s1", 1)] "gone" = none
    ∧ postMessages [("s1", 1)] "gone"
        = .rejected 400 "No transport found for sessionId"
    ∧ invokedTransports (postMessages [("s1", 1)] "gone") = []
    ∧ postMessages [("s1", 1)] "toString" = .typeErrorFault := by
  have h := dispatch_unknown_session_rejected [("s1", 1)] "gone" (by rfl)
  have h2 := dispatch_unknown_session_rejected [("s1", 1)] "toString" (by rfl)
  exact ⟨by rfl, (h.1 (by decide)).1, h.2.2, h2.2.1 (by decide)⟩

/-- Counterexample to C3: after closing a session registered under the
identifier "toString", a subsequent dispatch with that identifier is NOT
rejected — the inherited Object.prototype member passes the 400 guard and
the handlePostMessage call on it throws a TypeError. -/
theorem close_toString_dispatch_not_rejected :
    closeSession [("toString", 5)] "toString" = []
    ∧ postMessages (closeSession [("toString", 5)] "toString") "toString"
        = .typeErrorFault
    ∧ postMessages (closeSession [("toString", 5)] "toString") "toString"
        ≠ .rejected 400 "No transport found for sessionId" := by
  refine ⟨by decide, by decide, by decide⟩

/-- C3 as amended: closing a session removes its registry entry, so a
subsequent dispatch with the same identifier is never delivered to any
session transport, and is rejected with HTTP 400 whenever the identifier is
not an Object.prototype member name (for a member name the dispatch instead
throws a TypeError on the inherited value, without answering 400); close is
idempotent; and closing an identifier that is not registered leaves the
registry unchanged. -/
theorem close_session_removes_and_idempotent
    (reg : List (String × Nat)) (sid : String) :
    lookupSession (closeSession reg sid) sid = none
    ∧ invokedTransports (postMessages (closeSession reg sid) sid) = []
    ∧ (sid ∉ objectPrototypeKeys →
        postMessages (closeSession reg sid) sid
          = .rejected 400 "No transport found for sessionId")
    ∧ (sid ∈ objectPrototypeKeys →
        postMessages (closeSession reg sid) sid = .typeErrorFault)
    ∧ closeSession (closeSession reg sid) sid = closeSession reg sid
    ∧ (lookupSession reg sid = none → closeSession reg sid = reg) := by
  have hnone := lookupSession_closeSession reg sid
  have hread : readTransports (closeSession reg sid) sid
      = if sid ∈ objectPrototypeKeys then .inherited else .undefinedRead := by
    unfold readTransports
    rw [hnone]
  refine ⟨hnone, ?_, ?_, ?_, closeSession_idem reg sid,
    closeSession_not_mem reg sid⟩
  · by_cases hmem : sid ∈ objectPrototypeKeys
    · unfold postMessages
      rw [hread, if_pos hmem]
      rfl
    · unfold postMessages
      rw [hread, if_neg hmem]
      rfl
  · intro hmem
    unfold postMessages
    rw [hread, if_neg hmem]
  · intro hmem
    unfold postMessages
    rw [hread, if_pos hmem]

/-- Witness for C3 on concrete registries: close then dispatch is rejected
for an ordinary identifier, a second close changes nothing, closing an
unknown id is a no-op, and close then dispatch at "toString" faults instead
of answering 400. -/
theorem close_session_removes_and_idempotent_witness :
    postMessages (closeSession [("s1", 1), ("s2", 2)] "s1") "s1"
        = .rejected 400 "No transport found for sessionId"
    ∧ closeSession (closeSession [("s1", 1), ("s2", 2)] "s1") "s1"
        = closeSession [("s1", 1), ("s2", 2)] "s1"
    ∧ lookupSession [("s1", 1), ("s2", 2)] "nope" = none
    ∧ closeSession [("s1", 1), ("s2", 2)] "nope" = [("s1", 1), ("s2", 2)]
    ∧ postMessages (closeSession [("toString", 5)] "toString") "toString"
        = .typeErrorFault := by
  have h1 := close_session_removes_and_idempotent [("s1", 1), ("s2", 2)] "s1"
  have h2 := close_session_removes_and_idempotent [("s1", 1), ("s2", 2)] "nope"
  have h3 := close_session_removes_and_idempotent [("toString", 5)] "toString"
  exact ⟨h1.2.2.1 (by decide), h1.2.2.2.2.1, by rfl, h2.2.2.2.2.2 (by rfl),
    h3.2.2.2.1 (by decide)⟩

/- ===================== Batch read lemmas ===================== -/

/-- Running the batch loop against a remote that answers every group with a
200 response whose parsed body is `{ results: f(part) }` succeeds and
returns the concatenation of the per-group results in group order. -/
theorem runBatchGroups_all_ok (f : List String → List Json) (object : String) :
    ∀ groups : List (List String),
    runBatchGroups
      (fun part => .response ⟨200, "", .ok (.obj [("results", .arr (f part))])⟩)
      object groups
      = .ok (groups.map f).flatten := by
  intro groups
  induction groups with
  | nil => rfl
  | cons part rest ih =>
    unfold runBatchGroups
    simp only [HttpResponse.isOk, Json.getField, lookupField, jsTruthy,
      jsSpreadElems, ih, List.map_cons, List.flatten_cons]
    norm_num

/-- If some group of the batch loop gets a non-ok HTTP response, the loop
throws: its result is an error, whichever group fails. -/
theorem runBatchGroups_error_of_bad (remote : List String → FetchOutcome)
    (object : String) :
    ∀ groups : List (List String), ∀ part ∈ groups, ∀ r : HttpResponse,
    remote part = .response r → r.isOk = false →
    ∃ e, runBatchGroups remote object groups = .error e := by
  intro groups
  induction groups with
  | nil =>
    intro part hp
    exact absurd hp (List.not_mem_nil part)
  | cons g rest ih =>
    intro part hp r hresp hbad
    rcases List.mem_cons.mp hp with heq | htail
    · subst heq
      refine ⟨.error ("HubSpot batch " ++ object ++ " " ++
        toString r.status ++ " " ++ r.text), ?_⟩
      unfold runBatchGroups
      simp only [hresp]
      rw [if_neg (by rw [hbad]; exact Bool.false_ne_true)]
    · obtain ⟨e, he⟩ := ih part htail r hresp hbad
      unfold runBatchGroups
      cases hg : remote g with
      | reject e2 => exact ⟨e2, rfl⟩
      | response r2 =>
        dsimp only
        by_cases hok : r2.isOk = true
        · rw [if_pos hok]
          cases hp2 : r2.parsed with
          | error rendering => exact ⟨.other rendering, rfl⟩
          | ok json =>
            dsimp only
            cases hres : json.getField "results" with
            | none => exact ⟨e, he⟩
            | some v =>
              dsimp only
              by_cases htr : jsTruthy v = true
              · rw [if_pos htr]
                cases hsp : jsSpreadElems v with
                | error e2 => exact ⟨e2, rfl⟩
                | ok es =>
                  dsimp only
                  rw [he]
                  exact ⟨e, rfl⟩
              · rw [if_neg htr]
                exact ⟨e, he⟩
        · rw [if_neg hok]
          exact ⟨.error ("HubSpot batch " ++ object ++ " " ++
            toString r2.status ++ " " ++ r2.text), rfl⟩

/- ===================== Claim theorems: batch read ===================== -/

/-- C4: for the batch-read tool on more than 90 ids, the ids are cut into
ceil(N/90) contiguous groups whose concatenation is the original list, every
group before the last has exactly 90 elements, one request is issued per
group in order, the concatenated result of an all-successful run lists the
per-group results in group order, and 181 ids produce exactly 3 groups of
sizes 90, 90, 1. -/
theorem batch_read_chunks_of_90 (ids : List String) (f : List String → List Json)
    (object : String) (props : Option (List String)) (hN : 90 < ids.length) :
    (batchReadRequests object ids props).length = (ids.length + 89) / 90
    ∧ (chunk ids 90).length = (ids.length + 89) / 90
    ∧ (∀ g ∈ (chunk ids 90).dropLast, g.length = 90)
    ∧ (chunk ids 90).flatten = ids
    ∧ hubspot_batch_read
        (fun part => .response ⟨200, "", .ok (.obj [("results", .arr (f part))])⟩)
        object ids props
        = .obj [("ok", .bool true), ("results", .arr ((chunk ids 90).map f).flatten)]
    ∧ (ids.length = 181 → (chunk ids 90).map List.length = [90, 90, 1]) := by
  refine ⟨?_, ?_, ?_, ?_, ?_, ?_⟩
  · unfold batchReadRequests
    rw [List.length_map, chunk_length]
    congr 1
  · rw [chunk_length]
    congr 1
  · exact chunk_dropLast_sizes 90 (by omega) ids
  · exact chunk_join 90 (by omega) ids
  · unfold hubspot_batch_read
    rw [runBatchGroups_all_ok]
  · intro h181
    have h1 : ids ≠ [] := by
      intro hc
      rw [hc] at h181
      simp at h181
    have hd1 : (ids.drop 90).length = 91 := by
      rw [List.length_drop, h181]
    have h2 : ids.drop 90 ≠ [] := by
      intro hc
      rw [hc] at hd1
      simp at hd1
    have hd2 : ((ids.drop 90).drop 90).length = 1 := by
      rw [List.length_drop, hd1]
    have h3 : (ids.drop 90).drop 90 ≠ [] := by
      intro hc
      rw [hc] at hd2
      simp at hd2
    have hd3 : (((ids.drop 90).drop 90).drop 90).length = 0 := by
      rw [List.length_drop, hd2]
    have h4 : ((ids.drop 90).drop 90).drop 90 = [] :=
      List.eq_nil_of_length_eq_zero hd3
    rw [chunk_cons ids 90 (by omega) h1,
      chunk_cons (ids.drop 90) 90 (by omega) h2,
      chunk_cons ((ids.drop 90).drop 90) 90 (by omega) h3,
      h4, chunk_nil]
    simp [List.length_take, h181, hd1, hd2]

/-- Witness for C4 at 181 concrete ids. -/
theorem batch_read_chunks_of_90_witness :
    90 < ((List.range 181).map toString).length
    ∧ (chunk ((List.range 181).map toString) 90).length
        = (((List.range 181).map toString).length + 89) / 90
    ∧ (chunk ((List.range 181).map toString) 90).map List.length = [90, 90, 1] := by
  have hlen : ((List.range 181).map toString).length = 181 := by
    rw [List.length_map, List.length_range]
  have h := batch_read_chunks_of_90 ((List.range 181).map toString)
    (fun _ => []) "deals" none (by rw [hlen]; omega)
  exact ⟨by rw [hlen]; omega, h.2.1, h.2.2.2.2.2 hlen⟩

/-- C6: if the remote call for any group of the batch-read tool answers with
a non-success HTTP status, the whole invocation returns the single failure
envelope — ok is false and no results field is reported, however many other
groups would have succeeded. -/
theorem batch_read_group_failure_fails_whole
    (remote : List String → FetchOutcome) (object : String) (ids : List String)
    (props : Option (List String)) (part : List String) (r : HttpResponse)
    (hmem : part ∈ chunk ids 90) (hresp : remote part = .response r)
    (hbad : r.isOk = false) :
    ∃ e, hubspot_batch_read remote object ids props = failEnv e
    ∧ (hubspot_batch_read remote object ids props).getField "ok"
        = some (.bool false)
    ∧ (hubspot_batch_read remote object ids props).getField "results" = none := by
  obtain ⟨e, he⟩ := runBatchGroups_error_of_bad remote object
    (chunk ids 90) part hmem r hresp hbad
  have henv : hubspot_batch_read remote object ids props = failEnv e.toStringRep := by
    unfold hubspot_batch_read
    rw [he]
  refine ⟨e.toStringRep, henv, ?_, ?_⟩
  · rw [henv]
    rfl
  · rw [henv]
    rfl

/-- Witness for C6: one id, one group, remote answers 500. -/
theorem batch_read_group_failure_fails_whole_witness :
    ["1"] ∈ chunk ["1"] 90
    ∧ (fun _ => FetchOutcome.response ⟨500, "boom", .error "x"⟩) ["1"]
        = FetchOutcome.response ⟨500, "boom", .error "x"⟩
    ∧ HttpResponse.isOk ⟨500, "boom", .error "x"⟩ = false
    ∧ ∃ e, hubspot_batch_read
        (fun _ => FetchOutcome.response ⟨500, "boom", .error "x"⟩)
        "deals" ["1"] none = failEnv e := by
  have hmem : ["1"] ∈ chunk ["1"] 90 := by
    rw [chunk_cons ["1"] 90 (by omega) (by simp)]
    simp
  have h := batch_read_group_failure_fails_whole
    (fun _ => FetchOutcome.response ⟨500, "boom", .error "x"⟩) "deals" ["1"] none
    ["1"] ⟨500, "boom", .error "x"⟩ hmem rfl (by rfl)
  obtain ⟨e, he, _, _⟩ := h
  exact ⟨hmem, rfl, by rfl, ⟨e, he⟩⟩

/- ===================== Claim theorems: associations batch ===================== -/

/-- Counterexample to C5: `hubspot_associations_batch` does not partition
its ids.  With 91 ids (more than 90), it still issues exactly one remote
call, and that single call carries all 91 ids in its inputs array — there is
no group of at most 90. -/
theorem associations_batch_91_ids_single_call :
    ((List.range 91).map toString).length = 91
    ∧ (associationsBatchRequests "companies" "deals"
        ((List.range 91).map toString)).length = 1
    ∧ ¬ 1 < (associationsBatchRequests "companies" "deals"
        ((List.range 91).map toString)).length
    ∧ jsOptLength ((associationsBatchBody
        ((List.range 91).map toString)).getField "inputs") = some 91 := by
  refine ⟨?_, rfl, ?_, ?_⟩
  · rw [List.length_map, List.length_range]
  · intro h
    have hlen : (associationsBatchRequests "companies" "deals"
        ((List.range 91).map toString)).length = 1 := rfl
    omega
  · have hf : (associationsBatchBody ((List.range 91).map toString)).getField
        "inputs" = some (.arr (((List.range 91).map toString).map
          (fun id => Json.obj [("id", .str id)]))) := rfl
    rw [hf]
    unfold jsOptLength
    dsimp only
    rw [List.length_map, List.length_map, List.length_range]

/-- C5 as amended: the bulk-association-read tool never partitions — it
issues exactly one remote call whose inputs array carries every input id in
the original order, whatever the size of the ids list (only the batch-read
tool applies the 90-element grouping). -/
theorem associations_batch_always_one_call (from_object to_object : String)
    (ids : List String) :
    (associationsBatchRequests from_object to_object ids).length = 1
    ∧ (associationsBatchBody ids).getField "inputs"
        = some (.arr (ids.map (fun id => Json.obj [("id", .str id)])))
    ∧ jsOptLength ((associationsBatchBody ids).getField "inputs")
        = some ids.length := by
  refine ⟨rfl, rfl, ?_⟩
  have hf : (associationsBatchBody ids).getField "inputs"
      = some (.arr (ids.map (fun id => Json.obj [("id", .str id)]))) := rfl
  rw [hf]
  unfold jsOptLength
  dsimp only
  rw [List.length_map]

/- ===================== Claim theorems: error envelopes ===================== -/

/-- String(e) of a thrown Error whose message ends in a status rendering
followed by the body text keeps that status and body as a verbatim suffix:
the whole string is some prefix followed by the status, a space, and the
body text. -/
theorem toStringRep_contains (pre2 s t : String) :
    JsError.toStringRep (.error (pre2 ++ s ++ " " ++ t))
      = ("Error: " ++ pre2) ++ s ++ " " ++ t := by
  unfold JsError.toStringRep
  dsimp only
  rw [← String.append_assoc, ← String.append_assoc, ← String.append_assoc]

/-- Counterexample to C7: a 2xx response whose body is not JSON is NOT
converted into a failure envelope by the hsPOST-based tools.  hsPOST falls
back to the raw body text, and the contacts search tool then reports a
success envelope with ok true, count 0, empty results and no error field. -/
theorem contacts_search_non_json_success_envelope :
    hubspot_contacts_search
        (.response ⟨200, "OK", .error "SyntaxError: Unexpected token"⟩)
        none none none
      = .obj [("ok", .bool true), ("count", .num 0), ("results", .arr []),
              ("paging", .null)]
    ∧ (hubspot_contacts_search
        (.response ⟨200, "OK", .error "SyntaxError: Unexpected token"⟩)
        none none none).getField "ok" = some (.bool true)
    ∧ (hubspot_contacts_search
        (.response ⟨200, "OK", .error "SyntaxError: Unexpected token"⟩)
        none none none).getField "error" = none := by
  exact ⟨rfl, rfl, rfl⟩

/-- C7 as amended: for every tool (contacts, companies, deals, owners,
properties, pipelines, paginate, batch-read, associations-batch, recently
modified, advanced search), a remote call failure that is a non-success HTTP
status or a transport error (a rejected fetch) is caught and turned into the
failure envelope `{ ok: false, error: String(e) }`, never an unhandled
fault; for a non-success status the error string contains the status code
and the body text verbatim.  A non-JSON body on a 2xx status is turned into
a failure envelope only by the strictly parsing batch tools (batch-read and
associations-batch); the hsPOST/hsGET tools fall back to the raw text and
return a success envelope. -/
theorem tool_remote_failures_become_error_envelopes
    (r : HttpResponse) (e : JsError) (rendering btext : String)
    (q stage pipeline after : Option String)
    (props : Option (List String)) (lim : Option Nat)
    (object from_object to_object : String)
    (since_ms : Nat) (fg : Json) (sorts : Option Json)
    (id : String) (ids : List String)
    (hbad : r.isOk = false) :
    hubspot_contacts_search (.response r) q props lim = hsStatusFailEnv r
    ∧ hubspot_companies_search (.response r) q props lim = hsStatusFailEnv r
    ∧ hubspot_deals_search (.response r) stage pipeline props lim
        = hsStatusFailEnv r
    ∧ hubspot_owners_list (.response r) after lim = hsStatusFailEnv r
    ∧ hubspot_properties (.response r) = hsStatusFailEnv r
    ∧ hubspot_pipelines (.response r) = hsStatusFailEnv r
    ∧ hubspot_paginate (.response r) = hsStatusFailEnv r
    ∧ hubspot_recently_modified (.response r) object since_ms props lim
        = hsStatusFailEnv r
    ∧ hubspot_search_advanced (.response r) object fg props lim sorts
        = hsStatusFailEnv r
    ∧ hubspot_batch_read (fun _ => .response r) object (id :: ids) props
        = failEnv (JsError.toStringRep (.error ("HubSpot batch " ++ object ++
            " " ++ toString r.status ++ " " ++ r.text)))
    ∧ hubspot_associations_batch (.response r) from_object to_object
        = failEnv (JsError.toStringRep (.error ("HubSpot associations " ++
            from_object ++ "->" ++ to_object ++ " " ++ toString r.status ++
            " " ++ r.text)))
    ∧ hubspot_contacts_search (.reject e) q props lim = failEnv e.toStringRep
    ∧ hubspot_companies_search (.reject e) q props lim = failEnv e.toStringRep
    ∧ hubspot_deals_search (.reject e) stage pipeline props lim
        = failEnv e.toStringRep
    ∧ hubspot_owners_list (.reject e) after lim = failEnv e.toStringRep
    ∧ hubspot_properties (.reject e) = failEnv e.toStringRep
    ∧ hubspot_pipelines (.reject e) = failEnv e.toStringRep
    ∧ hubspot_paginate (.reject e) = failEnv e.toStringRep
    ∧ hubspot_recently_modified (.reject e) object since_ms props lim
        = failEnv e.toStringRep
    ∧ hubspot_search_advanced (.reject e) object fg props lim sorts
        = failEnv e.toStringRep
    ∧ hubspot_batch_read (fun _ => .reject e) object (id :: ids) props
        = failEnv e.toStringRep
    ∧ hubspot_associations_batch (.reject e) from_object to_object
        = failEnv e.toStringRep
    ∧ hubspot_batch_read (fun _ => .response ⟨200, btext, .error rendering⟩)
        object (id :: ids) props = failEnv rendering
    ∧ hubspot_associations_batch (.response ⟨200, btext, .error rendering⟩)
        from_object to_object = failEnv rendering
    ∧ hubspot_contacts_search (.response ⟨200, btext, .error rendering⟩)
        q props lim = searchSuccessEnvelope (.str btext)
    ∧ (∃ pre, JsError.toStringRep (.error ("HubSpot " ++ toString r.status ++
        " " ++ r.text)) = pre ++ toString r.status ++ " " ++ r.text)
    ∧ (∃ pre, JsError.toStringRep (.error ("HubSpot batch " ++ object ++
        " " ++ toString r.status ++ " " ++ r.text))
        = pre ++ toString r.status ++ " " ++ r.text)
    ∧ (∃ pre, JsError.toStringRep (.error ("HubSpot associations " ++
        from_object ++ "->" ++ to_object ++ " " ++ toString r.status ++
        " " ++ r.text)) = pre ++ toString r.status ++ " " ++ r.text) := by
  have hbad2 : ¬ (r.isOk = true) := by
    rw [hbad]
    exact Bool.false_ne_true
  have hpost : hsPOST (.response r)
      = .error (.error ("HubSpot " ++ toString r.status ++ " " ++ r.text)) := by
    unfold hsPOST
    dsimp only
    rw [if_neg hbad2]
  have hget : hsGET (.response r)
      = .error (.error ("HubSpot " ++ toString r.status ++ " " ++ r.text)) := by
    unfold hsGET
    dsimp only
    rw [if_neg hbad2]
  have hne : (id :: ids) ≠ [] := by simp
  have hrun : runBatchGroups (fun _ => .response r) object
      (chunk (id :: ids) 90)
      = .error (.error ("HubSpot batch " ++ object ++ " " ++
          toString r.status ++ " " ++ r.text)) := by
    rw [chunk_cons (id :: ids) 90 (by omega) hne]
    unfold runBatchGroups
    dsimp only
    rw [if_neg hbad2]
  have hrunreject : runBatchGroups (fun _ => FetchOutcome.reject e) object
      (chunk (id :: ids) 90) = .error e := by
    rw [chunk_cons (id :: ids) 90 (by omega) hne]
    rfl
  have hrunparse : runBatchGroups
      (fun _ => FetchOutcome.response ⟨200, btext, .error rendering⟩) object
      (chunk (id :: ids) 90) = .error (.other rendering) := by
    rw [chunk_cons (id :: ids) 90 (by omega) hne]
    rfl
  refine ⟨?_, ?_, ?_, ?_, ?_, ?_, ?_, ?_, ?_, ?_, ?_,
    rfl, rfl, rfl, rfl, rfl, rfl, rfl, rfl, rfl, ?_, rfl, ?_, rfl, rfl,
    ⟨"Error: " ++ "HubSpot ",
      toStringRep_contains "HubSpot " (toString r.status) r.text⟩,
    ⟨"Error: " ++ ("HubSpot batch " ++ object ++ " "),
      toStringRep_contains ("HubSpot batch " ++ object ++ " ")
        (toString r.status) r.text⟩,
    ⟨"Error: " ++ ("HubSpot associations " ++ from_object ++ "->" ++
        to_object ++ " "),
      toStringRep_contains ("HubSpot associations " ++ from_object ++ "->" ++
        to_object ++ " ") (toString r.status) r.text⟩⟩
  · unfold hubspot_contacts_search hsStatusFailEnv
    rw [hpost]
  · unfold hubspot_companies_search hsStatusFailEnv
    rw [hpost]
  · unfold hubspot_deals_search hsStatusFailEnv
    rw [hpost]
  · unfold hubspot_owners_list hsStatusFailEnv
    rw [hget]
  · unfold hubspot_properties hsStatusFailEnv
    rw [hget]
  · unfold hubspot_pipelines hsStatusFailEnv
    rw [hget]
  · unfold hubspot_paginate hsStatusFailEnv
    rw [hget]
  · unfold hubspot_recently_modified hsStatusFailEnv
    rw [hpost]
  · unfold hubspot_search_advanced hsStatusFailEnv
    rw [hpost]
  · unfold hubspot_batch_read
    rw [hrun]
  · unfold hubspot_associations_batch
    dsimp only
    rw [if_neg hbad2]
  · unfold hubspot_batch_read
    rw [hrunreject]
  · unfold hubspot_batch_read
    rw [hrunparse]
    rfl

/-- Witness for C7 as amended: a concrete 404 response, a concrete
transport rejection, and a concrete 200 response with a non-JSON body. -/
theorem tool_remote_failures_become_error_envelopes_witness :
    HttpResponse.isOk ⟨404, "not found", .ok .null⟩ = false
    ∧ hubspot_contacts_search (.response ⟨404, "not found", .ok .null⟩)
        none none none = hsStatusFailEnv ⟨404, "not found", .ok .null⟩
    ∧ hubspot_associations_batch (.response ⟨404, "not found", .ok .null⟩)
        "companies" "deals"
      = failEnv (JsError.toStringRep (.error ("HubSpot associations " ++
          "companies" ++ "->" ++ "deals" ++ " " ++ toString (404 : Nat) ++
          " " ++ "not found")))
    ∧ hubspot_owners_list (.reject (.other "TypeError: fetch failed"))
        none none
      = failEnv (JsError.toStringRep (.other "TypeError: fetch failed"))
    ∧ hubspot_batch_read
        (fun _ => FetchOutcome.response ⟨200, "OK", .error "SyntaxError"⟩)
        "deals" ["1"] none = failEnv "SyntaxError" := by
  have h := tool_remote_failures_become_error_envelopes
    ⟨404, "not found", .ok .null⟩ (.other "TypeError: fetch failed")
    "SyntaxError" "OK" none none none none none none "deals" "companies"
    "deals" 0 (.arr []) none "1" [] (by rfl)
  exact ⟨by rfl, h.1, h.2.2.2.2.2.2.2.2.2.2.1,
    h.2.2.2.2.2.2.2.2.2.2.2.2.2.2.1, h.2.2.2.2.2.2.2.2.2.2.2.2.2.2.2.2.2.2.2.2.2.2.1⟩


/- ===================== Claim theorems: deals search example ===================== -/

/-- On a present field value, `v ?? null` is the value itself (when the
value is the literal null, the default null is returned, which is the same
value). -/
theorem jsNullish_null_default (v : Json) : jsNullish (some v) .null = v := by
  cases v <;> rfl

/-- C8: invoking the deals search tool with only stage "closedwon" issues
exactly one outbound search call whose body carries a single EQ filter on
dealstage and the default property list with the default limit 20; and a 200
response whose parsed body has a results array of length K and a paging
field yields the envelope with ok true, count K, the K results, and the
remote paging value (or null when the remote paging is null). -/
theorem deals_search_closedwon_request_and_envelope
    (results : List Json) (paging : Json) (text : String) :
    dealsSearchRequests (some "closedwon") none none none
      = [("/crm/v3/objects/deals/search",
          { filterGroups := [[⟨"dealstage", "EQ", "closedwon"⟩]],
            properties := dealsDefaultProps,
            limit := 20 })]
    ∧ (hubspot_deals_search
        (.response ⟨200, text,
          .ok (.obj [("results", .arr results), ("paging", paging)])⟩)
        (some "closedwon") none none none).getField "ok" = some (.bool true)
    ∧ (hubspot_deals_search
        (.response ⟨200, text,
          .ok (.obj [("results", .arr results), ("paging", paging)])⟩)
        (some "closedwon") none none none).getField "count"
        = some (.num results.length)
    ∧ (hubspot_deals_search
        (.response ⟨200, text,
          .ok (.obj [("results", .arr results), ("paging", paging)])⟩)
        (some "closedwon") none none none).getField "results"
        = some (.arr results)
    ∧ (hubspot_deals_search
        (.response ⟨200, text,
          .ok (.obj [("results", .arr results), ("paging", paging)])⟩)
        (some "closedwon") none none none).getField "paging" = some paging := by
  refine ⟨rfl, rfl, rfl, rfl, ?_⟩
  show some (jsNullish (some paging) .null) = some paging
  rw [jsNullish_null_default]

/- ===================== Claim theorems: owners list example ===================== -/

/-- C9: invoking the owners list tool with no arguments defaults limit to
100 and issues exactly one GET whose query string is limit=100 with no after
parameter; on a 200 response with parsed object fields `fs`, the envelope is
`{ ok: true }` spread with `fs`, so every top-level remote field passes
through unchanged and ok is true whenever the remote response does not
itself carry an ok field. -/
theorem owners_list_defaults_and_passthrough
    (fs : List (String × Json)) (text : String) (k : String) (v : Json) :
    ownersListRequests none none = [("/crm/v3/owners/", [("limit", "100")])]
    ∧ (∀ kv ∈ hsGETQueryParams [("after", .undef), ("limit", .vnum 100)],
        kv.1 ≠ "after")
    ∧ hubspot_owners_list (.response ⟨200, text, .ok (.obj fs)⟩) none none
        = .obj (("ok", .bool true) :: fs)
    ∧ (lookupField fs k = some v →
        (Json.obj (("ok", .bool true) :: fs)).getField k = some v)
    ∧ (lookupField fs "ok" = none →
        (Json.obj (("ok", .bool true) :: fs)).getField "ok"
          = some (.bool true)) := by
  have hcons : ∀ key : String, Json.getField (.obj (("ok", .bool true) :: fs)) key
      = match lookupField fs key with
        | some r => some r
        | none => if "ok" = key then some (.bool true) else none := by
    intro key
    rfl
  refine ⟨rfl, ?_, rfl, ?_, ?_⟩
  · intro kv hkv
    have hp : hsGETQueryParams [("after", .undef), ("limit", .vnum 100)]
        = [("limit", "100")] := rfl
    rw [hp] at hkv
    have : kv = ("limit", "100") := List.mem_singleton.mp hkv
    subst this
    decide
  · intro h
    rw [hcons k, h]
  · intro h
    rw [hcons "ok", h]; rfl

/-- Witness for C9 on a concrete remote response shape. -/
theorem owners_list_defaults_and_passthrough_witness :
    ownersListRequests none none = [("/crm/v3/owners/", [("limit", "100")])]
    ∧ hubspot_owners_list
        (.response ⟨200, "", .ok (.obj [("results", .arr []), ("paging", .null)])⟩)
        none none
      = .obj [("ok", .bool true), ("results", .arr []), ("paging", .null)]
    ∧ (Json.obj [("ok", .bool true), ("results", .arr []),
        ("paging", .null)]).getField "results" = some (.arr [])
    ∧ (Json.obj [("ok", .bool true), ("results", .arr []),
        ("paging", .null)]).getField "ok" = some (.bool true) := by
  have h := owners_list_defaults_and_passthrough
    [("results", .arr []), ("paging", .null)] "" "results" (.arr [])
  exact ⟨h.1, h.2.2.1, h.2.2.2.1 (by rfl), h.2.2.2.2 (by rfl)⟩

/- ===================== Claim theorems: count invariant ===================== -/

/-- Whether the results field of a parsed remote body, if present, is null
or an array — the shapes under which a length is meaningful. -/
def resultsWellFormed (data : Json) : Prop :=
  match data.getField "results" with
  | none => True
  | some .null => True
  | some (.arr _) => True
  | some _ => False

/-- A success envelope whose count field equals the length of its results
array. -/
def countMatchesResults (env : Json) : Prop :=
  ∃ l : List Json, env.getField "results" = some (.arr l)
    ∧ env.getField "count" = some (.num l.length)

/-- C10: for every search-style tool (contacts, companies, deals, recently
modified, advanced search) and every 200 response whose parsed results
field, if present, is null or an array, the success envelope carries a
count equal to the length of its results array; results defaults to the
empty array and count to 0 when the remote results field is absent, and
paging defaults to null when the remote paging field is absent or null. -/
theorem search_tools_count_eq_results_length
    (text : String) (data : Json) (q stage pipeline : Option String)
    (props : Option (List String)) (lim : Option Nat) (object : String)
    (since_ms : Nat) (fg : Json) (sorts : Option Json)
    (h : resultsWellFormed data) :
    countMatchesResults
      (hubspot_contacts_search (.response ⟨200, text, .ok data⟩) q props lim)
    ∧ countMatchesResults
      (hubspot_companies_search (.response ⟨200, text, .ok data⟩) q props lim)
    ∧ countMatchesResults
      (hubspot_deals_search (.response ⟨200, text, .ok data⟩) stage pipeline
        props lim)
    ∧ countMatchesResults
      (hubspot_recently_modified (.response ⟨200, text, .ok data⟩) object
        since_ms props lim)
    ∧ countMatchesResults
      (hubspot_search_advanced (.response ⟨200, text, .ok data⟩) object fg
        props lim sorts)
    ∧ (data.getField "results" = none →
        (searchSuccessEnvelope data).getField "results" = some (.arr [])
        ∧ (searchSuccessEnvelope data).getField "count" = some (.num 0))
    ∧ ((data.getField "paging" = none ∨ data.getField "paging" = some .null) →
        (searchSuccessEnvelope data).getField "paging" = some .null) := by
  have e1 : (searchSuccessEnvelope data).getField "results"
      = some (jsNullish (data.getField "results") (.arr [])) := rfl
  have e2 : (searchSuccessEnvelope data).getField "count"
      = some (.num ((jsOptLength (data.getField "results")).getD 0)) := rfl
  have e3 : (searchSuccessEnvelope data).getField "paging"
      = some (jsNullish (data.getField "paging") .null) := rfl
  have hmain : countMatchesResults (searchSuccessEnvelope data) := by
    unfold resultsWellFormed at h
    cases hres : data.getField "results" with
    | none =>
      refine ⟨[], ?_, ?_⟩
      · rw [e1, hres]; rfl
      · rw [e2, hres]; rfl
    | some v =>
      rw [hres] at h
      cases v with
      | null =>
        refine ⟨[], ?_, ?_⟩
        · rw [e1, hres]; rfl
        · rw [e2, hres]; rfl
      | arr l =>
        refine ⟨l, ?_, ?_⟩
        · rw [e1, hres]; rfl
        · rw [e2, hres]; rfl
      | bool b =>
        dsimp only at h
      | num n =>
        dsimp only at h
      | str s =>
        dsimp only at h
      | obj fields =>
        dsimp only at h
  refine ⟨hmain, hmain, hmain, hmain, hmain, ?_, ?_⟩
  · intro hnone
    constructor
    · rw [e1, hnone]; rfl
    · rw [e2, hnone]; rfl
  · intro hp
    rcases hp with hnone | hnull
    · rw [e3, hnone]; rfl
    · rw [e3, hnull]; rfl

/-- Witness for C10 on a concrete remote body with a two-element results
array. -/
theorem search_tools_count_eq_results_length_witness :
    resultsWellFormed (.obj [("results", .arr [.num 1, .num 2])])
    ∧ countMatchesResults
      (hubspot_contacts_search
        (.response ⟨200, "", .ok (.obj [("results", .arr [.num 1, .num 2])])⟩)
        none none none) := by
  have h := search_tools_count_eq_results_length ""
    (.obj [("results", .arr [.num 1, .num 2])]) none none none none none
    "deals" 0 (.arr []) none (by trivial)
  exact ⟨by trivial, h.1⟩
